import Mathlib

/-!
Verification of the Context7 ChatGPT bridge (`context7_bridge.py`).

The development shallowly embeds the pure translation logic of the bridge:
the line-oriented parser `parse_library_info`, the search operation with
its result-id minting and cache population, and the fetch operation with
its `base_id|topic:..|tokens:..` id parsing, cache resolution and error
classification.  The external Context7 backend (`_call_context7`, a
subprocess) is modelled as an oracle `CallArgs → String`, matching the
contract of `Context7Client`: every transport failure is returned as a
textual sentinel, never an exception.  The MD5 hex digest used for result
ids is modelled as an abstract function `String → String`.

Python string primitives used by the source (`startswith`, `in`, `split`,
`replace`, `strip`, `title`, `int`, truthiness) are modelled over
`List Char` for ASCII inputs.
-/

namespace Context7

/-- Model of Python `str.startswith` via character-list prefix testing. -/
def listPre : List Char → List Char → Bool
  | [], _ => true
  | _ :: _, [] => false
  | a :: as, b :: bs => a == b && listPre as bs

/-- Model of the Python substring test `pat in s` on character lists. -/
def listSub (pat : List Char) : List Char → Bool
  | [] => pat.isEmpty
  | x :: xs => listPre pat (x :: xs) || listSub pat xs

/-- Model of Python `str.split(c)` for a one-character separator:
splits on every occurrence and keeps empty pieces; never returns `[]`. -/
def splitOnChar (c : Char) : List Char → List (List Char)
  | [] => [[]]
  | x :: xs =>
    if x == c then [] :: splitOnChar c xs
    else
      match splitOnChar c xs with
      | [] => [[x]]
      | y :: ys => (x :: y) :: ys

/-- Model of Python `str.replace(pat, rep)` (all non-overlapping
occurrences, scanned left to right) on character lists; structurally
recursive on a fuel argument that the wrapper sets to the input length,
which every step strictly consumes. -/
def replGo (pat rep : List Char) : Nat → List Char → List Char
  | _, [] => []
  | 0, l => l
  | fuel + 1, x :: xs =>
    if pat ≠ [] ∧ listPre pat (x :: xs) then
      rep ++ replGo pat rep fuel ((x :: xs).drop pat.length)
    else
      x :: replGo pat rep fuel xs

def replaceL (pat rep l : List Char) : List Char := replGo pat rep l.length l

/-- Model of Python `str.strip()`: drop whitespace on both ends. -/
def stripL (l : List Char) : List Char :=
  ((l.dropWhile Char.isWhitespace).reverse.dropWhile Char.isWhitespace).reverse

/-- Model of Python `str.title()` for ASCII: the first letter of every
maximal letter run is uppercased, the following letters lowercased. -/
def titleL : Bool → List Char → List Char
  | _, [] => []
  | prev, c :: cs =>
    if c.isAlpha then
      (if prev then c.toLower else c.toUpper) :: titleL true cs
    else
      c :: titleL false cs

def pyStartsWith (s pre : String) : Bool := listPre pre.data s.data

/-- Python `sub in s` substring containment. -/
def pyIn (sub s : String) : Bool := listSub sub.data s.data

def pySplit (c : Char) (s : String) : List String :=
  (splitOnChar c s.data).map String.mk

def pyReplace (s pat rep : String) : String :=
  String.mk (replaceL pat.data rep.data s.data)

def pyStrip (s : String) : String := String.mk (stripL s.data)

def pyTitle (s : String) : String := String.mk (titleL false s.data)

/-- Python `lst[-1]` on the (always nonempty) result of `str.split`. -/
def pyLast (l : List String) : String := l.getLastD ""

/-- String truthiness of an optional Python value that is either absent
(`None`) or a string: truthy iff present and nonempty. -/
def optTruthy : Option String → Bool
  | none => false
  | some s => s != ""

def digitsVal (l : List Char) : Nat :=
  l.foldl (fun a c => a * 10 + (c.toNat - 48)) 0

def allDigits (l : List Char) : Bool := !l.isEmpty && l.all Char.isDigit

/-- Model of Python `int(s)` on already-stripped ASCII input: an optional
sign followed by at least one digit; anything else raises `ValueError`,
modelled as `none`. -/
def pyInt? (s : String) : Option Int :=
  match s.data with
  | '-' :: rest => if allDigits rest then some (-(digitsVal rest : Int)) else none
  | '+' :: rest => if allDigits rest then some (digitsVal rest : Int) else none
  | l => if allDigits l then some (digitsVal l : Int) else none

/-- Model of `query.startswith("/") and "/" in query[1:]`, the library-path
shape test used by both `search` and `fetch`. -/
def isLibraryPath (q : String) : Bool :=
  pyStartsWith q ("/") && (q.data.drop 1).contains '/'

/-- Arguments of the two Context7 tools invoked through
`Context7Client._call_context7`.  `getDocs` carries the `topic` key only
when `get_library_docs` actually put it into the argument dict. -/
inductive CallArgs where
  | resolve (libraryName : String)
  | getDocs (libraryID : String) (tokens : Int) (topic : Option String)
deriving DecidableEq

/-- The backend oracle: the model of `Context7Client._call_context7`.
The real client returns every failure as a sentinel string, so the
oracle is total. -/
abbrev Oracle := CallArgs → String

/-- Translation of `Context7Client.resolve_library_id`. -/
def resolve_library_id (oracle : Oracle) (library_name : String) : String :=
  oracle (CallArgs.resolve library_name)

/-- Translation of `Context7Client.get_library_docs`: the `topic` argument
is included only when truthy. -/
def get_library_docs (oracle : Oracle) (library_id : String)
    (topic : Option String) (tokens : Int) : String :=
  oracle (CallArgs.getDocs library_id tokens (if optTruthy topic then topic else none))

/-- One record accumulated by `parse_library_info`; each field is
present exactly when the corresponding marker line has been seen. -/
structure Library where
  title : Option String := none
  id : Option String := none
  library_id : Option String := none
  text : Option String := none
  snippets : Option String := none
  trust_score : Option String := none
deriving DecidableEq

def emptyLib : Library := {}

/-- Starting a fresh record holding only the title, as done on each
`- Title:` line (the argument is the already-stripped line). -/
def titleInit (line : String) : Library :=
  { title := some (pyStrip (pyReplace line ("- Title:") (""))) }

/-- Effect of one non-Title marker line on the current record
(the argument is the already-stripped line). -/
def fieldStep (lib : Library) (line : String) : Library :=
  if pyStartsWith line ("- Context7-compatible library ID:") then
    let v := pyStrip (pyReplace line ("- Context7-compatible library ID:") (""))
    { lib with id := some v, library_id := some v }
  else if pyStartsWith line ("- Description:") then
    { lib with text := some (pyStrip (pyReplace line ("- Description:") (""))) }
  else if pyStartsWith line ("- Code Snippets:") then
    { lib with snippets := some (pyStrip (pyReplace line ("- Code Snippets:") (""))) }
  else if pyStartsWith line ("- Trust Score:") then
    { lib with trust_score := some (pyStrip (pyReplace line ("- Trust Score:") (""))) }
  else
    lib

/-- Truthiness test guarding record emission: the record is kept only
when its `id` field is present and nonempty (a dict holding a truthy
`id` is itself truthy). -/
def truthyLib (lib : Library) : Bool := optTruthy lib.id

/-- The line loop of `ChatGPTContext7Bridge.parse_library_info`. -/
def parseGo : List String → Library → List Library → List Library
  | [], cur, acc => if truthyLib cur then acc ++ [cur] else acc
  | l :: ls, cur, acc =>
    let line := pyStrip l
    if pyStartsWith line ("- Title:") then
      parseGo ls (titleInit line) (if truthyLib cur then acc ++ [cur] else acc)
    else
      parseGo ls (fieldStep cur line) acc

/-- Translation of `ChatGPTContext7Bridge.parse_library_info`. -/
def parse_library_info (resp : String) : List Library :=
  (parseGo (pySplit '\n' resp) emptyLib []).take 10

/-- One value of `ChatGPTContext7Bridge.search_cache`, keyed by a minted
result id. -/
structure CacheEntry where
  library_id : String
  query : String
  title : String
  description : String
  snippets : String
  trust_score : String
deriving DecidableEq

/-- The in-process `search_cache` dict, most recent insertion first. -/
abbrev Cache := List (String × CacheEntry)

/-- Dict read: the most recently inserted binding of the key wins,
matching Python dict update semantics for the prepend representation. -/
def cacheLookup : Cache → String → Option CacheEntry
  | [], _ => none
  | (k, v) :: rest, key => if key = k then some v else cacheLookup rest key

/-- One element of the `results` list returned by `search`. -/
structure SearchResult where
  id : String
  title : String
  text : String
  url : Option String
deriving DecidableEq

/-- Python `sep.join(parts)`. -/
def joinSep (sep : String) : List String → String
  | [] => ""
  | [x] => x
  | x :: xs => x ++ sep ++ joinSep sep xs

/-- The per-candidate result construction of the name-search branch of
`ChatGPTContext7Bridge.search` (`description_parts` assembly). -/
def mkSearchResult (lib : Library) (libId result_id : String) : SearchResult :=
  let parts1 : List String := if optTruthy lib.text then [lib.text.getD ""] else []
  let context7_info : List String :=
    (if optTruthy lib.snippets then ["Code Snippets: " ++ lib.snippets.getD ""] else []) ++
    (if optTruthy lib.trust_score then ["Trust Score: " ++ lib.trust_score.getD ""] else [])
  let parts2 : List String :=
    parts1 ++
    (if context7_info.isEmpty then [] else ["\n[" ++ joinSep (" | ") context7_info ++ "]"])
  let parts3 : List String :=
    parts2 ++ ["\nContext7 Library ID: " ++ libId] ++
    ["\nUse the fetch tool with this result\x27s ID to get full documentation. Add \x27|topic:your_topic\x27 for focused docs."]
  { id := result_id
    title := lib.title.getD ("Unknown Library") ++ " (" ++ libId ++ ")"
    text := joinSep ("") parts3
    url := if optTruthy lib.id then some ("https://context7.com" ++ libId) else none }

/-- The cache entry written by the name-search branch for one candidate. -/
def entryOfLib (lib : Library) (query : String) : CacheEntry :=
  { library_id := lib.id.getD ""
    query := query
    title := lib.title.getD ""
    description := lib.text.getD ""
    snippets := lib.snippets.getD ("0")
    trust_score := lib.trust_score.getD ("0") }

/-- The `for lib in libraries` loop of the name-search branch: skip
candidates without a truthy id and title, otherwise mint
`md5(f"{lib[id]}:{query}")`, insert the cache entry and append the
shaped result. -/
def searchFold (h : String → String) (query : String) :
    List Library → Cache → List SearchResult → Cache × List SearchResult
  | [], cache, acc => (cache, acc)
  | lib :: libs, cache, acc =>
    if optTruthy lib.id && optTruthy lib.title then
      let libId := lib.id.getD ""
      let result_id := h (libId ++ ":" ++ query)
      searchFold h query libs ((result_id, entryOfLib lib query) :: cache)
        (acc ++ [mkSearchResult lib libId result_id])
    else
      searchFold h query libs cache acc

/-- The cache entry written by the direct-path branch of `search`. -/
def directEntry (query : String) : CacheEntry :=
  { library_id := query
    query := query
    title := pyTitle (pyReplace (pyLast (pySplit '/' query)) ("-") (" "))
    description := "Direct Context7 library access for " ++ query
    snippets := "Available"
    trust_score := "Verified" }

/-- The single synthetic result returned by the direct-path branch of
`search`. -/
def directResult (result_id query : String) : SearchResult :=
  { id := result_id
    title := "Direct Library Access: " ++ query
    text := "Context7-compatible library ID: " ++ query ++
      "\nDirect access verified - documentation available.\nUse fetch tool to retrieve full documentation."
    url := some ("https://context7.com" ++ query) }

/-- Translation of `ChatGPTContext7Bridge.search`, parametrised by the hash `h`
modelling `hashlib.md5(..).hexdigest()` and by the backend oracle.
Returns the updated `search_cache` and the `results` list. -/
def searchOp (h : String → String) (oracle : Oracle) (cache : Cache)
    (query : String) : Cache × List SearchResult :=
  if isLibraryPath query then
    let test_docs := get_library_docs oracle query none 100
    if pyIn ("Error calling Context7") test_docs ||
        pyIn ("No documentation found") test_docs then
      (cache, [])
    else
      let result_id := h (query ++ ":direct")
      ((result_id, directEntry query) :: cache, [directResult result_id query])
  else
    let resp := resolve_library_id oracle query
    if pyIn ("No matching libraries found") resp ||
        pyIn ("Error calling Context7") resp then
      (cache, [])
    else
      searchFold h query (parse_library_info resp) cache []

/-- The `base_id`/`topic`/`tokens` triple parsed by `fetch` from its id
argument. -/
structure ParsedId where
  base : String
  topic : Option String
  tokens : Int
deriving DecidableEq

/-- The parameter-parsing prefix of `ChatGPTContext7Bridge.fetch`:
split on `|`, then scan the remaining segments for `topic:`/`tokens:`
markers; a malformed `tokens:` value is ignored and the parsed value is
floored at 10000. -/
def pfStep (acc : ParsedId) (part : String) : ParsedId :=
  if pyStartsWith part ("topic:") then
    { acc with topic := some (pyStrip (pyReplace part ("topic:") (""))) }
  else if pyStartsWith part ("tokens:") then
    match pyInt? (pyStrip (pyReplace part ("tokens:") (""))) with
    | some n => { acc with tokens := max n 10000 }
    | none => acc
  else acc

def parseFetchId (id : String) : ParsedId :=
  let parts := pySplit '|' id
  (parts.tail).foldl pfStep { base := parts.headD "", topic := none, tokens := 10000 }

/-- The `cached_info` dict as consumed by the rest of `fetch`: exactly
the four keys it reads. -/
structure FetchInfo where
  title : String
  query : String
  snippets : String
  trust_score : String
deriving DecidableEq

def fetchInfoOf (e : CacheEntry) : FetchInfo :=
  { title := e.title, query := e.query
    snippets := e.snippets, trust_score := e.trust_score }

/-- The `base_id` resolution step of `fetch`: a library-path shaped id
is used directly with synthesized metadata, anything else must be in
the cache. -/
def resolveBase (cache : Cache) (base_id : String) :
    Except String (String × FetchInfo) :=
  if isLibraryPath base_id then
    Except.ok (base_id,
      { title := pyTitle (pyLast (pySplit '/' base_id))
        query := base_id
        snippets := "Unknown"
        trust_score := "Unknown" })
  else
    match cacheLookup cache base_id with
    | none =>
      Except.error ("Unknown document ID: " ++ base_id ++
        ". Please search first to get valid IDs.")
    | some e => Except.ok (e.library_id, fetchInfoOf e)

/-- The `metadata` block of a successful fetch response. -/
structure FetchMeta where
  library_id : String
  context7_compatible_id : String
  topic : String
  tokens_requested : Int
  original_query : String
  snippets_available : String
  trust_score : String
  source : String
  documentation_length : Nat
deriving DecidableEq

/-- A successful fetch response document. -/
structure FetchResult where
  id : String
  title : String
  text : String
  url : String
  metadata : FetchMeta
deriving DecidableEq

/-- The body of `ChatGPTContext7Bridge.fetch` inside its `try` block:
raised `ValueError`s become `Except.error` with the exception message. -/
def fetchBody (oracle : Oracle) (cache : Cache) (id : String) :
    Except String FetchResult :=
  let p := parseFetchId id
  match resolveBase cache p.base with
  | Except.error e => Except.error e
  | Except.ok (library_id, cached_info) =>
    let fetch_topic : String :=
      if optTruthy p.topic then p.topic.getD "" else cached_info.query
    let docs := get_library_docs oracle library_id (some fetch_topic) p.tokens
    if pyIn ("Error calling Context7") docs then
      Except.error ("Failed to fetch documentation: " ++ docs)
    else
      let title_parts : List String :=
        [cached_info.title] ++
        (if optTruthy p.topic then ["- " ++ pyTitle (p.topic.getD "")] else []) ++
        ["Documentation"]
      Except.ok
        { id := id
          title := joinSep (" ") title_parts
          text := docs
          url := "https://context7.com" ++ library_id
          metadata :=
            { library_id := library_id
              context7_compatible_id := library_id
              topic := fetch_topic
              tokens_requested := p.tokens
              original_query := cached_info.query
              snippets_available := cached_info.snippets
              trust_score := cached_info.trust_score
              source := "Context7 MCP Server"
              documentation_length := docs.length } }

/-- Translation of `ChatGPTContext7Bridge.fetch`: the outer `except` clause re-raises
every failure as `ValueError(f"Failed to fetch document: {e}")`. -/
def fetchOp (oracle : Oracle) (cache : Cache) (id : String) :
    Except String FetchResult :=
  match fetchBody oracle cache id with
  | Except.ok r => Except.ok r
  | Except.error e => Except.error ("Failed to fetch document: " ++ e)

/-- The two bridge tools, as dispatched by the `tools/call` handler. -/
inductive BridgeOp where
  | search (query : String)
  | fetch (id : String)

inductive BridgeOut where
  | searched (results : List SearchResult)
  | fetched (r : Except String FetchResult)

/-- One bridge operation acting on the shared `search_cache` state:
`search` is the only operation whose source writes the cache; `fetch`
only reads it. -/
def bridgeStep (h : String → String) (oracle : Oracle) (cache : Cache) :
    BridgeOp → Cache × BridgeOut
  | BridgeOp.search q =>
    let r := searchOp h oracle cache q
    (r.1, BridgeOut.searched r.2)
  | BridgeOp.fetch id => (cache, BridgeOut.fetched (fetchOp oracle cache id))

/-!
Specification-side decomposition of the response parser, used to state
that `parse_library_info` splits its input into one candidate record
per `- Title:` block.
-/

/-- Is this raw line a `- Title:` marker (after stripping)? -/
def isTitleLine (l : String) : Bool := pyStartsWith (pyStrip l) ("- Title:")

/-- Effect of one raw line on a record: strip, then apply the non-Title
field markers. -/
def stepLine (lib : Library) (l : String) : Library := fieldStep lib (pyStrip l)

/-- Split a line list into the lines before the first `- Title:` marker
and one block per marker, each block headed by its marker line. -/
def splitBlocks : List String → List String × List (List String)
  | [] => ([], [])
  | l :: ls =>
    let r := splitBlocks ls
    if isTitleLine l then ([], (l :: r.1) :: r.2)
    else (l :: r.1, r.2)

/-- The record a single `- Title:` block denotes: initialise from the
marker line, then fold the field lines that follow it. -/
def recordOfBlock : List String → Library
  | [] => emptyLib
  | t :: rest => rest.foldl stepLine (titleInit (pyStrip t))

/-- The parser, restated from the spec: split the response into
`- Title:` blocks, turn each block into a record carrying only the
fields between its marker and the next, keep the records with a truthy
library id, and cap the list at 10. -/
def specParse (resp : String) : List Library :=
  let lines := pySplit '\n' resp
  (((splitBlocks lines).1.foldl stepLine emptyLib ::
      (splitBlocks lines).2.map recordOfBlock).filter truthyLib).take 10

/-- The number of `- Title:` marker lines in a response text. -/
def titleLineCount (resp : String) : Nat :=
  ((pySplit '\n' resp).filter isTitleLine).length

theorem parseGo_eq_blocks (ls : List String) : ∀ cur acc,
    parseGo ls cur acc =
      acc ++ (((splitBlocks ls).1.foldl stepLine cur ::
        (splitBlocks ls).2.map recordOfBlock).filter truthyLib) := by
  induction ls with
  | nil =>
    intro cur acc
    simp only [parseGo, splitBlocks, List.foldl_nil, List.map_nil, List.filter]
    by_cases h : truthyLib cur <;> simp [h]
  | cons l ls ih =>
    intro cur acc
    by_cases h : isTitleLine l
    · simp only [parseGo, isTitleLine] at h ⊢
      rw [if_pos h]
      rw [ih]
      simp only [splitBlocks, isTitleLine, if_pos h, List.foldl_nil, List.map_cons,
        recordOfBlock, List.filter]
      by_cases hc : truthyLib cur <;>
        simp [hc, List.append_assoc]
    · simp only [parseGo, isTitleLine] at h ⊢
      rw [if_neg h]
      rw [ih]
      simp only [splitBlocks, isTitleLine, if_neg h, List.foldl_cons, stepLine]

theorem splitBlocks_count (ls : List String) :
    (splitBlocks ls).2.length = (ls.filter isTitleLine).length := by
  induction ls with
  | nil => simp [splitBlocks]
  | cons l ls ih =>
    by_cases h : isTitleLine l <;>
      simp [splitBlocks, h, List.filter, ih]

/-- C7 (amended): the parser yields one candidate record per `- Title:`
block that carries a truthy library-id field (plus a possible leading
record when id lines precede the first marker); each record holds
exactly the fields set by the marker lines between its `- Title:` line
and the next; the list is capped at 10.  Stated as: the parser equals
the split-into-blocks specification, blocks correspond one-to-one to
`- Title:` lines, and the output length is at most 10. -/
theorem parse_blocks_decomposition (resp : String) :
    parse_library_info resp = specParse resp ∧
    (splitBlocks (pySplit '\n' resp)).2.length = titleLineCount resp ∧
    (parse_library_info resp).length ≤ 10 := by
  refine ⟨?_, splitBlocks_count _, ?_⟩
  · simp only [parse_library_info, specParse, parseGo_eq_blocks, List.nil_append]
  · simp only [parse_library_info]
    exact List.length_take_le _ _

/-- C7 counterexample: a response with one `- Title:` block but no
library-id line yields zero records, not one — the block count and the
record count disagree, refuting the claim as stated. -/
theorem parse_title_without_id_cex :
    titleLineCount ("- Title: A\n- Description: d") = 1 ∧
    parse_library_info ("- Title: A\n- Description: d") = [] := by
  constructor <;> rfl

/-! Basic facts about the modelled string primitives. -/

theorem str_data_append (a b : String) : (a ++ b).data = a.data ++ b.data := rfl

theorem str_mk_data (s : String) : String.mk s.data = s := rfl

theorem splitOnChar_ne_nil (c : Char) (l : List Char) : splitOnChar c l ≠ [] := by
  induction l with
  | nil => simp [splitOnChar]
  | cons x xs ih =>
    by_cases h : x == c
    · simp [splitOnChar, h]
    · simp only [splitOnChar, h, Bool.false_eq_true, if_neg, if_false]
      cases hs : splitOnChar c xs with
      | nil => simp
      | cons y ys => simp

theorem splitOnChar_not_mem {c : Char} {l : List Char} (h : c ∉ l) :
    splitOnChar c l = [l] := by
  induction l with
  | nil => rfl
  | cons x xs ih =>
    have hx : (x == c) = false := by
      simp only [beq_eq_false_iff_ne, ne_eq]
      intro he
      exact h (he ▸ List.mem_cons_self x xs)
    have hxs : c ∉ xs := fun hm => h (List.mem_cons_of_mem _ hm)
    simp [splitOnChar, hx, ih hxs]

theorem splitOnChar_append {c : Char} {l rest : List Char} (h : c ∉ l) :
    splitOnChar c (l ++ c :: rest) = l :: splitOnChar c rest := by
  induction l with
  | nil => simp [splitOnChar]
  | cons x xs ih =>
    have hx : (x == c) = false := by
      simp only [beq_eq_false_iff_ne, ne_eq]
      intro he
      exact h (he ▸ List.mem_cons_self x xs)
    have hxs : c ∉ xs := fun hm => h (List.mem_cons_of_mem _ hm)
    simp only [List.cons_append, splitOnChar, hx, Bool.false_eq_true, if_false,
      List.append_eq]
    rw [ih hxs]

theorem pySplit_single {c : Char} {s : String} (h : c ∉ s.data) :
    pySplit c s = [s] := by
  simp [pySplit, splitOnChar_not_mem h]

/-- An id with no `|` parses to itself with default modifiers. -/
theorem parseFetchId_nobar {id : String} (h : '|' ∉ id.data) :
    parseFetchId id = { base := id, topic := none, tokens := 10000 } := by
  simp [parseFetchId, pySplit_single h]

theorem pfStep_tokens_ge {acc : ParsedId} (h : 10000 ≤ acc.tokens) (part : String) :
    10000 ≤ (pfStep acc part).tokens := by
  unfold pfStep
  split
  · exact h
  · split
    · split
      · exact le_max_right _ _
      · exact h
    · exact h

theorem foldl_pfStep_tokens_ge (l : List String) :
    ∀ acc : ParsedId, 10000 ≤ acc.tokens → 10000 ≤ (l.foldl pfStep acc).tokens := by
  induction l with
  | nil => intro acc h; exact h
  | cons p ps ih =>
    intro acc h
    exact ih _ (pfStep_tokens_ge h p)

/-- Every parsed token budget is at least the 10000 floor. -/
theorem parseFetchId_tokens_ge (id : String) : 10000 ≤ (parseFetchId id).tokens := by
  unfold parseFetchId
  exact foldl_pfStep_tokens_ge _ _ le_rfl

/-- What a successful `fetch` looks like, given how its base id
resolved: the backend was called with the resolved library id, the
effective topic and the parsed token budget; the sentinel check on the
returned text was negative; and the response carries the raw text and
the resolved parameters in its metadata. -/
theorem fetch_ok_spec (oracle : Oracle) (cache : Cache) (id L : String)
    (info : FetchInfo) (res : FetchResult)
    (h1 : resolveBase cache (parseFetchId id).base = Except.ok (L, info))
    (h2 : fetchOp oracle cache id = Except.ok res) :
    pyIn ("Error calling Context7")
      (get_library_docs oracle L
        (some (if optTruthy (parseFetchId id).topic
               then (parseFetchId id).topic.getD "" else info.query))
        (parseFetchId id).tokens) = false ∧
    res.text = get_library_docs oracle L
        (some (if optTruthy (parseFetchId id).topic
               then (parseFetchId id).topic.getD "" else info.query))
        (parseFetchId id).tokens ∧
    res.metadata.library_id = L ∧
    res.metadata.topic = (if optTruthy (parseFetchId id).topic
               then (parseFetchId id).topic.getD "" else info.query) ∧
    res.metadata.tokens_requested = (parseFetchId id).tokens ∧
    res.metadata.original_query = info.query := by
  have hb : fetchBody oracle cache id = Except.ok res := by
    unfold fetchOp at h2
    cases hx : fetchBody oracle cache id <;> rw [hx] at h2
    · cases h2
    · cases h2
      rfl
  unfold fetchBody at hb
  simp only at hb
  rw [h1] at hb
  simp only at hb
  split at hb <;> rename_i htop <;> split at hb
  · cases hb
  · rename_i hcond
    cases hb
    simp only [Bool.not_eq_true] at hcond
    simp [htop, hcond]
  · cases hb
  · rename_i hcond
    cases hb
    simp only [Bool.not_eq_true] at hcond
    simp [htop, hcond]

/-- If the base id fails to resolve, `fetch` reports the resolution
error wrapped by the outer exception handler. -/
theorem fetch_error_of_resolve (oracle : Oracle) (cache : Cache) (id e : String)
    (h1 : resolveBase cache (parseFetchId id).base = Except.error e) :
    fetchOp oracle cache id = Except.error ("Failed to fetch document: " ++ e) := by
  unfold fetchOp fetchBody
  simp only
  rw [h1]

/-- A placeholder document used to state closed witnesses. -/
def dummyDoc : FetchResult :=
  { id := "", title := "", text := "", url := ""
    metadata :=
      { library_id := "", context7_compatible_id := "", topic := ""
        tokens_requested := 0, original_query := "", snippets_available := ""
        trust_score := "", source := "", documentation_length := 0 } }

/-- C1 (amended): `fetch` surfaces an unknown base id and any returned
text containing the `Error calling Context7` sentinel as errors, so a
successful fetch body never contains that sentinel; the transport
sentinels (`Timeout calling Context7 server`, `No valid response from
Context7 server`, `Could not get response from Context7 server`) are
not checked and pass through (see the counterexample). -/
theorem fetch_sentinel_surfaced (oracle : Oracle) (cache : Cache) (id : String)
    (res : FetchResult) (h : fetchOp oracle cache id = Except.ok res) :
    pyIn ("Error calling Context7") res.text = false := by
  cases hr : resolveBase cache (parseFetchId id).base with
  | error e =>
    rw [fetch_error_of_resolve oracle cache id e hr] at h
    cases h
  | ok p =>
    have hs := fetch_ok_spec oracle cache id p.1 p.2 res hr h
    rw [hs.2.1]
    exact hs.1

/-- Witness for C1 (amended) at a concrete benign backend text. -/
theorem fetch_sentinel_surfaced_witness :
    pyIn ("Error calling Context7")
      ((Except.toOption (fetchOp (fun _ => "plain docs") [] ("/a/b"))).getD dummyDoc).text
      = false :=
  fetch_sentinel_surfaced (fun _ => "plain docs") [] ("/a/b")
    ((Except.toOption (fetchOp (fun _ => "plain docs") [] ("/a/b"))).getD dummyDoc)
    (by rfl)

/-- C1 counterexample: with every backend invocation path failing (the
client returns its timeout sentinel), `fetch` returns the sentinel text
as a successful document body instead of raising an error — the claim
that fetch never returns a failure text as a document body is false. -/
theorem fetch_timeout_leak_cex :
    Option.map FetchResult.text
      (Except.toOption (fetchOp (fun _ => "Timeout calling Context7 server") []
        ("/org/project"))) = some ("Timeout calling Context7 server") := by
  rfl

/-- C3: `fetch("/org/project|topic:hooks|tokens:500")` parses base id
`/org/project`, topic `hooks`, and floors the requested 500 tokens to
exactly 10000; in general every parsed tokens value is at least 10000;
and the backend call of that fetch carries library id `/org/project`,
topic `hooks` and exactly 10000 tokens. -/
theorem fetch_param_parsing :
    parseFetchId ("/org/project|topic:hooks|tokens:500") =
      { base := "/org/project", topic := some ("hooks"), tokens := 10000 } ∧
    (∀ id, 10000 ≤ (parseFetchId id).tokens) ∧
    (∀ oracle : Oracle, ∀ res : FetchResult,
      fetchOp oracle [] ("/org/project|topic:hooks|tokens:500") = Except.ok res →
      res.metadata.library_id = "/org/project" ∧
      res.metadata.topic = "hooks" ∧
      res.metadata.tokens_requested = 10000 ∧
      res.text = oracle (CallArgs.getDocs ("/org/project") 10000 (some ("hooks")))) := by
  refine ⟨by rfl, parseFetchId_tokens_ge, ?_⟩
  intro oracle res h
  have h1 : resolveBase ([] : Cache)
      (parseFetchId ("/org/project|topic:hooks|tokens:500")).base =
      Except.ok ("/org/project",
        { title := "Project", query := "/org/project"
          snippets := "Unknown", trust_score := "Unknown" }) := by rfl
  have hs := fetch_ok_spec _ _ _ _ _ _ h1 h
  exact ⟨hs.2.2.1, hs.2.2.2.1, hs.2.2.2.2.1, hs.2.1⟩

/-- Witness for C3 at a concrete backend. -/
theorem fetch_param_parsing_witness :
    ((Except.toOption (fetchOp (fun _ => "docs content") []
        ("/org/project|topic:hooks|tokens:500"))).getD dummyDoc).metadata.tokens_requested
      = 10000 :=
  (fetch_param_parsing.2.2 (fun _ => "docs content")
    ((Except.toOption (fetchOp (fun _ => "docs content") []
        ("/org/project|topic:hooks|tokens:500"))).getD dummyDoc) (by rfl)).2.2.1

/-- C4: a fetch whose base id is not library-path shaped and is absent
from the cache fails with the "Unknown document ID" classification
carrying the offending id — it does not return placeholder content. -/
theorem fetch_unknown_id (oracle : Oracle) (cache : Cache) (id : String)
    (h1 : isLibraryPath (parseFetchId id).base = false)
    (h2 : cacheLookup cache (parseFetchId id).base = none) :
    fetchOp oracle cache id = Except.error ("Failed to fetch document: " ++
      ("Unknown document ID: " ++ (parseFetchId id).base ++
        ". Please search first to get valid IDs.")) := by
  refine fetch_error_of_resolve oracle cache id _ ?_
  unfold resolveBase
  rw [h1]
  simp [h2]

/-- Witness for C4: the example id from the spec against an empty cache. -/
theorem fetch_unknown_id_witness :
    fetchOp (fun _ => "docs") [] ("unknown-id-not-in-cache") =
      Except.error ("Failed to fetch document: " ++
        ("Unknown document ID: " ++ "unknown-id-not-in-cache" ++
          ". Please search first to get valid IDs.")) :=
  fetch_unknown_id (fun _ => "docs") [] ("unknown-id-not-in-cache") (by rfl) (by rfl)

/-- C5: `search` degrades to the empty result set on every backend
failure it can observe: a backend error or no-documentation sentinel in
the direct-path probe, and a backend error or no-match sentinel in the
name-resolution response.  (The source additionally wraps the whole
search body in a catch-all returning `{"results": []}`; the embedding
is total, so the sentinel branches are the entire observable failure
surface of the model.) -/
theorem search_sentinel_empty (h : String → String) (oracle : Oracle)
    (cache : Cache) (q : String) :
    (isLibraryPath q = true →
      (pyIn ("Error calling Context7") (get_library_docs oracle q none 100) = true ∨
       pyIn ("No documentation found") (get_library_docs oracle q none 100) = true) →
      (searchOp h oracle cache q).2 = []) ∧
    (isLibraryPath q = false →
      (pyIn ("No matching libraries found") (resolve_library_id oracle q) = true ∨
       pyIn ("Error calling Context7") (resolve_library_id oracle q) = true) →
      (searchOp h oracle cache q).2 = []) := by
  constructor
  · intro hq hs
    unfold searchOp
    rcases hs with hs | hs <;> simp [hq, hs]
  · intro hq hs
    unfold searchOp
    rcases hs with hs | hs <;> simp [hq, hs]

/-- Witness for C5: the example from the spec, a library-path query whose
probe reports a resolution error, yields an empty result set. -/
theorem search_sentinel_empty_witness :
    (searchOp (fun s => s) (fun _ => "Error calling Context7: resolution failed") []
      ("/not/a/real/library")).2 = [] :=
  (search_sentinel_empty (fun s => s)
    (fun _ => "Error calling Context7: resolution failed") [] ("/not/a/real/library")).1
    (by rfl) (Or.inl (by rfl))

/-! Cache growth facts for the frame claim. -/

theorem cacheLookup_mono (pre : Cache) (cache : Cache) (k : String) (v : CacheEntry)
    (h : cacheLookup cache k = some v) :
    ∃ v2, cacheLookup (pre ++ cache) k = some v2 := by
  induction pre with
  | nil => exact ⟨v, h⟩
  | cons e pre ih =>
    obtain ⟨v2, hv2⟩ := ih
    by_cases hk : k = e.1
    · exact ⟨e.2, by simp [cacheLookup, hk]⟩
    · exact ⟨v2, by simpa [cacheLookup, hk] using hv2⟩

theorem searchFold_cache_superset (h : String → String) (q : String)
    (libs : List Library) :
    ∀ cache acc, ∃ pre : Cache, (searchFold h q libs cache acc).1 = pre ++ cache := by
  induction libs with
  | nil => intro cache acc; exact ⟨[], rfl⟩
  | cons lib libs ih =>
    intro cache acc
    by_cases hg : (optTruthy lib.id && optTruthy lib.title) = true
    · simp only [searchFold, hg, if_true]
      obtain ⟨pre, hp⟩ := ih
        ((h (lib.id.getD "" ++ ":" ++ q), entryOfLib lib q) :: cache)
        (acc ++ [mkSearchResult lib (lib.id.getD "") (h (lib.id.getD "" ++ ":" ++ q))])
      exact ⟨pre ++ [(h (lib.id.getD "" ++ ":" ++ q), entryOfLib lib q)],
        by rw [hp, List.append_assoc, List.singleton_append]⟩
    · simp only [searchFold, hg, if_false, Bool.false_eq_true]
      exact ih cache acc

theorem searchOp_cache_superset (h : String → String) (oracle : Oracle)
    (cache : Cache) (q : String) :
    ∃ pre : Cache, (searchOp h oracle cache q).1 = pre ++ cache := by
  unfold searchOp
  by_cases hq : isLibraryPath q = true
  · by_cases hs : (pyIn ("Error calling Context7") (get_library_docs oracle q none 100) ||
        pyIn ("No documentation found") (get_library_docs oracle q none 100)) = true
    · exact ⟨[], by simp [hq, hs]⟩
    · exact ⟨[(h (q ++ ":direct"), directEntry q)], by simp [hq, hs]⟩
  · by_cases hs : (pyIn ("No matching libraries found") (resolve_library_id oracle q) ||
        pyIn ("Error calling Context7") (resolve_library_id oracle q)) = true
    · exact ⟨[], by simp [hq, hs]⟩
    · obtain ⟨pre, hp⟩ := searchFold_cache_superset h q
        (parse_library_info (resolve_library_id oracle q)) cache []
      exact ⟨pre, by simp only [hq, hs, Bool.false_eq_true, if_false]; exact hp⟩

/-- C9: `fetch` never mutates the cache — the state after any fetch
(successful or failed) is exactly the state before — and `search` only
inserts: every key bound before a search is still bound after it, so no
operation evicts an entry. -/
theorem fetch_preserves_cache (h : String → String) (oracle : Oracle)
    (cache : Cache) (id q k : String) (v : CacheEntry) :
    (bridgeStep h oracle cache (BridgeOp.fetch id)).1 = cache ∧
    (cacheLookup cache k = some v →
      ∃ v2, cacheLookup (bridgeStep h oracle cache (BridgeOp.search q)).1 k = some v2) := by
  refine ⟨rfl, fun hk => ?_⟩
  obtain ⟨pre, hp⟩ := searchOp_cache_superset h oracle cache q
  have hstep : (bridgeStep h oracle cache (BridgeOp.search q)).1 = pre ++ cache := hp
  rw [hstep]
  exact cacheLookup_mono pre cache k v hk

/-- A sample cache entry for closed witnesses. -/
def sampleEntry : CacheEntry :=
  { library_id := "/x/y", query := "q", title := "T"
    description := "d", snippets := "1", trust_score := "9" }

/-! String append cancellation, used to show the minted key determines
the library id. -/

theorem str_append_right_cancel {a b s : String} (hab : a ++ s = b ++ s) :
    a = b := by
  have hd : a.data ++ s.data = b.data ++ s.data := congrArg String.data hab
  have hlen : a.data.length = b.data.length := by
    have hl := congrArg List.length hd
    simp only [List.length_append, Nat.add_right_cancel_iff] at hl
    exact hl
  have hdata : a.data = b.data := (List.append_inj hd hlen).1
  exact congrArg String.mk hdata

theorem mint_key_inj {L M q : String} (hk : L ++ ":" ++ q = M ++ ":" ++ q) :
    L = M :=
  str_append_right_cancel (str_append_right_cancel hk)

/-! The cache/result invariant connecting each minted search result to
the cache entry that `fetch` will read back. -/

/-- Statement that `r` is a result whose id the cache resolves to the library that
minted it: the entry found under `r.id` stores the originating query
and a library id whose mint key hashes to `r.id`. -/
def goodAt (h : String → String) (q : String) (c : Cache) (r : SearchResult) : Prop :=
  ∃ e : CacheEntry, cacheLookup c r.id = some e ∧ e.query = q ∧
    (isLibraryPath q = true → e.library_id = q ∧ r.id = h (q ++ ":direct")) ∧
    (isLibraryPath q = false → r.id = h (e.library_id ++ ":" ++ q))

theorem goodAt_cons (h : String → String) (q : String)
    (hq : isLibraryPath q = false) (c : Cache) (r : SearchResult) (lib : Library)
    (hgood : goodAt h q c r) :
    goodAt h q ((h (lib.id.getD "" ++ ":" ++ q), entryOfLib lib q) :: c) r := by
  obtain ⟨e, he, heq, hdir, hname⟩ := hgood
  by_cases hk : r.id = h (lib.id.getD "" ++ ":" ++ q)
  · refine ⟨entryOfLib lib q, ?_, rfl, ?_, ?_⟩
    · unfold cacheLookup
      rw [if_pos hk]
    · intro ht
      rw [ht] at hq
      cases hq
    · intro _
      exact hk
  · refine ⟨e, ?_, heq, hdir, hname⟩
    unfold cacheLookup
    rw [if_neg hk]
    exact he

theorem goodAt_new (h : String → String) (q : String)
    (hq : isLibraryPath q = false) (c : Cache) (lib : Library) :
    goodAt h q ((h (lib.id.getD "" ++ ":" ++ q), entryOfLib lib q) :: c)
      (mkSearchResult lib (lib.id.getD "") (h (lib.id.getD "" ++ ":" ++ q))) := by
  refine ⟨entryOfLib lib q, ?_, rfl, ?_, ?_⟩
  · unfold cacheLookup
    have hcid : (mkSearchResult lib (lib.id.getD "")
        (h (lib.id.getD "" ++ ":" ++ q))).id = h (lib.id.getD "" ++ ":" ++ q) := rfl
    rw [if_pos hcid]
  · intro ht
    rw [ht] at hq
    cases hq
  · intro _
    rfl

theorem searchFold_good (h : String → String) (q : String)
    (hq : isLibraryPath q = false) (libs : List Library) :
    ∀ cache acc, (∀ r ∈ acc, goodAt h q cache r) →
      ∀ r ∈ (searchFold h q libs cache acc).2,
        goodAt h q (searchFold h q libs cache acc).1 r := by
  induction libs with
  | nil =>
    intro cache acc hacc r hr
    exact hacc r hr
  | cons lib libs ih =>
    intro cache acc hacc r hr
    by_cases hg : (optTruthy lib.id && optTruthy lib.title) = true
    · simp only [searchFold, hg, if_true] at hr ⊢
      refine ih _ _ ?_ r hr
      intro r2 hr2
      rcases List.mem_append.mp hr2 with hmem | hmem
      · exact goodAt_cons h q hq cache r2 lib (hacc r2 hmem)
      · rw [List.mem_singleton.mp hmem]
        exact goodAt_new h q hq cache lib
    · simp only [searchFold, hg, Bool.false_eq_true, if_false] at hr ⊢
      exact ih cache acc hacc r hr

/-- In the non-sentinel name-search branch, `search` is the candidate
fold over the parsed response. -/
theorem searchOp_name_eq (h : String → String) (oracle : Oracle) (cache : Cache)
    (q : String) (hq : isLibraryPath q = false)
    (hs : (pyIn ("No matching libraries found") (resolve_library_id oracle q) ||
      pyIn ("Error calling Context7") (resolve_library_id oracle q)) = false) :
    searchOp h oracle cache q =
      searchFold h q (parse_library_info (resolve_library_id oracle q)) cache [] := by
  unfold searchOp
  simp [hq, hs]

/-- In the non-sentinel direct-path branch, `search` inserts the direct
entry and returns the single direct result. -/
theorem searchOp_direct_eq (h : String → String) (oracle : Oracle) (cache : Cache)
    (q : String) (hq : isLibraryPath q = true)
    (hs : (pyIn ("Error calling Context7") (get_library_docs oracle q none 100) ||
      pyIn ("No documentation found") (get_library_docs oracle q none 100)) = false) :
    searchOp h oracle cache q =
      ((h (q ++ ":direct"), directEntry q) :: cache,
        [directResult (h (q ++ ":direct")) q]) := by
  unfold searchOp
  simp [hq, hs]

/-- The minted results of any `search` satisfy the cache invariant. -/
theorem searchOp_good (h : String → String) (oracle : Oracle) (cache : Cache)
    (q : String) :
    ∀ r ∈ (searchOp h oracle cache q).2,
      goodAt h q (searchOp h oracle cache q).1 r := by
  intro r hr
  by_cases hq : isLibraryPath q = true
  · by_cases hs : (pyIn ("Error calling Context7") (get_library_docs oracle q none 100) ||
        pyIn ("No documentation found") (get_library_docs oracle q none 100)) = true
    · unfold searchOp at hr
      simp [hq, hs] at hr
    · rw [searchOp_direct_eq h oracle cache q hq (by simpa using hs)] at hr ⊢
      rw [List.mem_singleton.mp hr]
      refine ⟨directEntry q, ?_, rfl, ?_, ?_⟩
      · unfold cacheLookup
        have hcid : (directResult (h (q ++ ":direct")) q).id = h (q ++ ":direct") := rfl
        rw [if_pos hcid]
      · intro _
        exact ⟨rfl, rfl⟩
      · intro hf
        rw [hf] at hq
        cases hq
  · have hq2 : isLibraryPath q = false := by simpa using hq
    by_cases hs : (pyIn ("No matching libraries found") (resolve_library_id oracle q) ||
        pyIn ("Error calling Context7") (resolve_library_id oracle q)) = true
    · unfold searchOp at hr
      simp [hq2, hs] at hr
    · rw [searchOp_name_eq h oracle cache q hq2 (by simpa using hs)] at hr ⊢
      exact searchFold_good h q hq2 _ cache [] (by intro r2 hr2; cases hr2) r hr

/-- Resolving a non-path id found in the cache yields its entry. -/
theorem resolveBase_of_good (c : Cache) (r : SearchResult) (h : String → String)
    (hpath : ∀ s, isLibraryPath (h s) = false)
    (e : CacheEntry) (he : cacheLookup c r.id = some e)
    (hid : ∃ s, r.id = h s) :
    resolveBase c r.id = Except.ok (e.library_id, fetchInfoOf e) := by
  obtain ⟨s, hsid⟩ := hid
  rw [hsid] at he ⊢
  unfold resolveBase
  rw [hpath s]
  simp only [Bool.false_eq_true, if_false]
  rw [he]

/-- C2: after `search(q)`, every returned result id is cached under an
entry recording the originating query and the backend library id that
produced the result, and a plain `fetch` of that id resolves through
the cache to exactly that library id (uniquely so, when the hash is
injective).  Hypotheses on `h` state that MD5 hex digests are never
library-path shaped and never contain the `|` delimiter. -/
theorem search_fetch_roundtrip (h : String → String) (oracle : Oracle)
    (cache : Cache) (q : String)
    (hpath : ∀ s, isLibraryPath (h s) = false)
    (hbar : ∀ s, '|' ∉ (h s).data) :
    ∀ r ∈ (searchOp h oracle cache q).2,
      ∃ e : CacheEntry,
        cacheLookup (searchOp h oracle cache q).1 r.id = some e ∧
        e.query = q ∧
        (isLibraryPath q = true → e.library_id = q ∧ r.id = h (q ++ ":direct")) ∧
        (isLibraryPath q = false → r.id = h (e.library_id ++ ":" ++ q) ∧
          (Function.Injective h → ∀ L, r.id = h (L ++ ":" ++ q) → L = e.library_id)) ∧
        parseFetchId r.id = { base := r.id, topic := none, tokens := 10000 } ∧
        resolveBase (searchOp h oracle cache q).1 r.id =
          Except.ok (e.library_id, fetchInfoOf e) ∧
        (∀ res, fetchOp oracle (searchOp h oracle cache q).1 r.id = Except.ok res →
          res.metadata.library_id = e.library_id) := by
  intro r hr
  obtain ⟨e, he, heq, hdir, hname⟩ := searchOp_good h oracle cache q r hr
  have hid : ∃ s, r.id = h s := by
    by_cases hq : isLibraryPath q = true
    · exact ⟨q ++ ":direct", (hdir hq).2⟩
    · exact ⟨e.library_id ++ ":" ++ q, hname (by simpa using hq)⟩
  have hparse : parseFetchId r.id = { base := r.id, topic := none, tokens := 10000 } := by
    obtain ⟨s, hsid⟩ := hid
    rw [hsid]
    exact parseFetchId_nobar (hbar s)
  have hres : resolveBase (searchOp h oracle cache q).1 r.id =
      Except.ok (e.library_id, fetchInfoOf e) :=
    resolveBase_of_good _ r h hpath e he hid
  refine ⟨e, he, heq, hdir, ?_, hparse, hres, ?_⟩
  · intro hq
    refine ⟨hname hq, fun hinj L hL => ?_⟩
    exact mint_key_inj (hinj (hL.symm.trans (hname hq)))
  · intro res hfr
    have hres2 : resolveBase (searchOp h oracle cache q).1 (parseFetchId r.id).base =
        Except.ok (e.library_id, fetchInfoOf e) := by
      rw [hparse]
      exact hres
    exact (fetch_ok_spec oracle _ r.id e.library_id (fetchInfoOf e) res hres2 hfr).2.2.1

/-- A placeholder search result used to state closed witnesses. -/
def dummyRes : SearchResult := { id := "", title := "", text := "", url := none }

/-- Witness for C2 on a concrete one-candidate backend response. -/
theorem search_fetch_roundtrip_witness :
    ∃ e : CacheEntry,
      cacheLookup
        (searchOp (fun _ => "deadbeef")
          (fun _ => "- Title: React\n- Context7-compatible library ID: /reactjs/react.dev")
          [] ("react")).1
        (((searchOp (fun _ => "deadbeef")
          (fun _ => "- Title: React\n- Context7-compatible library ID: /reactjs/react.dev")
          [] ("react")).2).getD 0 dummyRes).id = some e ∧
      e.query = "react" := by
  obtain ⟨e, he, heq, _⟩ :=
    search_fetch_roundtrip (fun _ => "deadbeef")
      (fun _ => "- Title: React\n- Context7-compatible library ID: /reactjs/react.dev")
      [] ("react") (fun _ => rfl)
      (fun _ => (by decide : '|' ∉ ("deadbeef" : String).data))
      (((searchOp (fun _ => "deadbeef")
        (fun _ => "- Title: React\n- Context7-compatible library ID: /reactjs/react.dev")
        [] ("react")).2).getD 0 dummyRes) (by decide)
  exact ⟨e, he, heq⟩

theorem searchFold_results_indep (h : String → String) (q : String)
    (libs : List Library) :
    ∀ c1 c2 acc, (searchFold h q libs c1 acc).2 = (searchFold h q libs c2 acc).2 := by
  induction libs with
  | nil => intro c1 c2 acc; rfl
  | cons lib libs ih =>
    intro c1 c2 acc
    by_cases hg : (optTruthy lib.id && optTruthy lib.title) = true
    · simp only [searchFold, hg, if_true]
      exact ih _ _ _
    · simp only [searchFold, hg, Bool.false_eq_true, if_false]
      exact ih _ _ _

theorem searchOp_results_indep (h : String → String) (oracle : Oracle)
    (c1 c2 : Cache) (q : String) :
    (searchOp h oracle c1 q).2 = (searchOp h oracle c2 q).2 := by
  unfold searchOp
  by_cases hq : isLibraryPath q = true
  · by_cases hs : (pyIn ("Error calling Context7") (get_library_docs oracle q none 100) ||
        pyIn ("No documentation found") (get_library_docs oracle q none 100)) = true <;>
      simp [hq, hs]
  · by_cases hs : (pyIn ("No matching libraries found") (resolve_library_id oracle q) ||
        pyIn ("Error calling Context7") (resolve_library_id oracle q)) = true <;>
      simp [hq, hs, searchFold_results_indep h q _ c1 c2 []]

/-- C6: result-id derivation is a pure deterministic function of the
pair (library id, query): the results of `search` are independent of
the pre-existing cache state — so repeated `search(query)` calls in one
process mint identical ids — and every minted id is the hash of the
canonical mint key of the library recorded for it in the cache. -/
theorem search_id_deterministic (h : String → String) (oracle : Oracle)
    (c1 c2 : Cache) (q : String) :
    (searchOp h oracle c1 q).2 = (searchOp h oracle c2 q).2 ∧
    (∀ r ∈ (searchOp h oracle c1 q).2,
      ∃ e : CacheEntry, cacheLookup (searchOp h oracle c1 q).1 r.id = some e ∧
        e.query = q ∧
        r.id = h (if isLibraryPath q then q ++ ":direct"
                  else e.library_id ++ ":" ++ q)) := by
  refine ⟨searchOp_results_indep h oracle c1 c2 q, ?_⟩
  intro r hr
  obtain ⟨e, he, heq, hdir, hname⟩ := searchOp_good h oracle c1 q r hr
  refine ⟨e, he, heq, ?_⟩
  by_cases hq : isLibraryPath q = true
  · simpa [hq] using (hdir hq).2
  · have hq2 : isLibraryPath q = false := by simpa using hq
    simpa [hq2] using hname hq2

/-- Witness for C6: the same query against two different caches. -/
theorem search_id_deterministic_witness :
    (searchOp (fun _ => "deadbeef")
      (fun _ => "- Title: React\n- Context7-compatible library ID: /reactjs/react.dev")
      [] ("react")).2 =
    (searchOp (fun _ => "deadbeef")
      (fun _ => "- Title: React\n- Context7-compatible library ID: /reactjs/react.dev")
      [("k", sampleEntry)] ("react")).2 ∧
    ∃ e : CacheEntry,
      cacheLookup (searchOp (fun _ => "deadbeef")
        (fun _ => "- Title: React\n- Context7-compatible library ID: /reactjs/react.dev")
        [] ("react")).1
        (((searchOp (fun _ => "deadbeef")
          (fun _ => "- Title: React\n- Context7-compatible library ID: /reactjs/react.dev")
          [] ("react")).2).getD 0 dummyRes).id = some e ∧ e.query = "react" := by
  refine ⟨(search_id_deterministic (fun _ => "deadbeef")
    (fun _ => "- Title: React\n- Context7-compatible library ID: /reactjs/react.dev")
    [] [("k", sampleEntry)] ("react")).1, ?_⟩
  obtain ⟨e, he, heq, _⟩ :=
    (search_id_deterministic (fun _ => "deadbeef")
      (fun _ => "- Title: React\n- Context7-compatible library ID: /reactjs/react.dev")
      [] [("k", sampleEntry)] ("react")).2
      (((searchOp (fun _ => "deadbeef")
        (fun _ => "- Title: React\n- Context7-compatible library ID: /reactjs/react.dev")
        [] ("react")).2).getD 0 dummyRes) (by decide)
  exact ⟨e, he, heq⟩

/-! Order-insensitivity of the two fetch-id modifiers. -/

theorem listPre_append_self (xs ys : List Char) : listPre xs (xs ++ ys) = true := by
  induction xs with
  | nil => rfl
  | cons a as ih => simp [listPre, ih]

theorem pyStartsWith_append (p T : String) : pyStartsWith (p ++ T) p = true := by
  unfold pyStartsWith
  rw [str_data_append]
  exact listPre_append_self _ _

theorem tokensPart_not_topic (tks : String) :
    pyStartsWith ("tokens:" ++ tks) ("topic:") = false := rfl

theorem topicPart_not_tokens (T : String) :
    pyStartsWith ("topic:" ++ T) ("tokens:") = false := rfl

theorem pySplit_two_mods (b m1 m2 : String)
    (hb : '|' ∉ b.data) (hm1 : '|' ∉ m1.data) (hm2 : '|' ∉ m2.data) :
    pySplit '|' (b ++ "|" ++ m1 ++ "|" ++ m2) = [b, m1, m2] := by
  have h1 : (b ++ "|" ++ m1 ++ "|" ++ m2).data
      = b.data ++ '|' :: (m1.data ++ '|' :: m2.data) := by
    simp only [str_data_append, List.append_assoc]
    rfl
  unfold pySplit
  rw [h1, splitOnChar_append hb]
  have h2 : '|' ∉ m1.data := hm1
  rw [splitOnChar_append h2, splitOnChar_not_mem hm2]
  rfl

/-- The two-modifier fetch id parses identically in either modifier
order (modifier values and base contain no delimiter). -/
theorem parseFetchId_order (b T tks : String)
    (hb : '|' ∉ b.data) (hT : '|' ∉ T.data) (htks : '|' ∉ tks.data) :
    parseFetchId (b ++ "|topic:" ++ T ++ "|tokens:" ++ tks) =
      parseFetchId (b ++ "|tokens:" ++ tks ++ "|topic:" ++ T) := by
  have hT2 : '|' ∉ ("topic:" ++ T).data := by
    rw [str_data_append]
    intro hm
    rcases List.mem_append.mp hm with hm | hm
    · exact absurd hm (by decide)
    · exact hT hm
  have htks2 : '|' ∉ ("tokens:" ++ tks).data := by
    rw [str_data_append]
    intro hm
    rcases List.mem_append.mp hm with hm | hm
    · exact absurd hm (by decide)
    · exact htks hm
  have hs1 : pySplit '|' (b ++ "|topic:" ++ T ++ "|tokens:" ++ tks)
      = [b, "topic:" ++ T, "tokens:" ++ tks] := by
    have hshape : b ++ "|topic:" ++ T ++ "|tokens:" ++ tks
        = b ++ "|" ++ ("topic:" ++ T) ++ "|" ++ ("tokens:" ++ tks) := by
      have hd := congrArg String.mk (show (b ++ "|topic:" ++ T ++ "|tokens:" ++ tks).data
        = (b ++ "|" ++ ("topic:" ++ T) ++ "|" ++ ("tokens:" ++ tks)).data by
          simp only [str_data_append, List.append_assoc]
          rfl)
      exact hd
    rw [hshape]
    exact pySplit_two_mods b ("topic:" ++ T) ("tokens:" ++ tks) hb hT2 htks2
  have hs2 : pySplit '|' (b ++ "|tokens:" ++ tks ++ "|topic:" ++ T)
      = [b, "tokens:" ++ tks, "topic:" ++ T] := by
    have hshape : b ++ "|tokens:" ++ tks ++ "|topic:" ++ T
        = b ++ "|" ++ ("tokens:" ++ tks) ++ "|" ++ ("topic:" ++ T) := by
      have hd := congrArg String.mk (show (b ++ "|tokens:" ++ tks ++ "|topic:" ++ T).data
        = (b ++ "|" ++ ("tokens:" ++ tks) ++ "|" ++ ("topic:" ++ T)).data by
          simp only [str_data_append, List.append_assoc]
          rfl)
      exact hd
    rw [hshape]
    exact pySplit_two_mods b ("tokens:" ++ tks) ("topic:" ++ T) hb htks2 hT2
  unfold parseFetchId
  rw [hs1, hs2]
  simp only [List.tail_cons, List.headD_cons, List.foldl_cons, List.foldl_nil]
  simp only [pfStep, pyStartsWith_append, tokensPart_not_topic, topicPart_not_tokens,
    if_true, Bool.false_eq_true, if_false]
  cases hY : pyInt? (pyStrip (pyReplace ("tokens:" ++ tks) ("tokens:") (""))) <;> rfl

def eraseId (r : FetchResult) : FetchResult := { r with id := "" }

/-- Fetch bodies for ids with equal parses agree except for the echoed
id field. -/
theorem fetchBody_ext_of_parse (oracle : Oracle) (cache : Cache) (id1 id2 : String)
    (hp : parseFetchId id1 = parseFetchId id2) :
    Except.map eraseId (fetchBody oracle cache id1) =
      Except.map eraseId (fetchBody oracle cache id2) := by
  unfold fetchBody
  simp only
  rw [hp]
  cases hres : resolveBase cache (parseFetchId id2).base with
  | error e => rfl
  | ok p =>
    obtain ⟨L, info⟩ := p
    simp only
    split
    · split
      · rfl
      · rfl
    · split
      · rfl
      · rfl

/-- Fetch responses for ids with equal parses agree except for the
echoed id field. -/
theorem fetch_ext_of_parse (oracle : Oracle) (cache : Cache) (id1 id2 : String)
    (hp : parseFetchId id1 = parseFetchId id2) :
    Except.map eraseId (fetchOp oracle cache id1) =
      Except.map eraseId (fetchOp oracle cache id2) := by
  have hbe := fetchBody_ext_of_parse oracle cache id1 id2 hp
  unfold fetchOp
  cases hb1 : fetchBody oracle cache id1 with
  | error e1 =>
    cases hb2 : fetchBody oracle cache id2 with
    | error e2 =>
      rw [hb1, hb2] at hbe
      simp only [Except.map] at hbe
      cases hbe
      rfl
    | ok r2 =>
      rw [hb1, hb2] at hbe
      simp only [Except.map] at hbe
      cases hbe
  | ok r1 =>
    cases hb2 : fetchBody oracle cache id2 with
    | error e2 =>
      rw [hb1, hb2] at hbe
      simp only [Except.map] at hbe
      cases hbe
    | ok r2 =>
      rw [hb1, hb2] at hbe
      simp only [Except.map, Except.ok.injEq] at hbe
      simp only [Except.map, Except.ok.injEq]
      exact hbe

/-- C8 (amended): the two optional fetch-id modifiers are
order-insensitive: both orders parse to the same
(base, topic, tokens) triple, and the two fetches behave identically
except that each response echoes its own input id string. -/
theorem fetch_modifier_order_insensitive (b T tks : String) (oracle : Oracle)
    (cache : Cache)
    (hb : '|' ∉ b.data) (hT : '|' ∉ T.data) (htks : '|' ∉ tks.data) :
    parseFetchId (b ++ "|topic:" ++ T ++ "|tokens:" ++ tks) =
      parseFetchId (b ++ "|tokens:" ++ tks ++ "|topic:" ++ T) ∧
    Except.map eraseId (fetchOp oracle cache (b ++ "|topic:" ++ T ++ "|tokens:" ++ tks)) =
      Except.map eraseId (fetchOp oracle cache (b ++ "|tokens:" ++ tks ++ "|topic:" ++ T)) :=
  ⟨parseFetchId_order b T tks hb hT htks,
   fetch_ext_of_parse oracle cache _ _ (parseFetchId_order b T tks hb hT htks)⟩

/-- Witness for C8 (amended) at concrete modifier values. -/
theorem fetch_modifier_order_insensitive_witness :
    parseFetchId ("/a/b" ++ "|topic:" ++ "hooks" ++ "|tokens:" ++ "15000") =
      parseFetchId ("/a/b" ++ "|tokens:" ++ "15000" ++ "|topic:" ++ "hooks") ∧
    Except.map eraseId (fetchOp (fun _ => "docs") []
        ("/a/b" ++ "|topic:" ++ "hooks" ++ "|tokens:" ++ "15000")) =
      Except.map eraseId (fetchOp (fun _ => "docs") []
        ("/a/b" ++ "|tokens:" ++ "15000" ++ "|topic:" ++ "hooks")) :=
  fetch_modifier_order_insensitive ("/a/b") ("hooks") ("15000") (fun _ => "docs") []
    (by decide) (by decide) (by decide)

/-- C8 counterexample: the two modifier orders parse identically, yet
the full fetch responses are not equal — each echoes its own input id —
so the two calls do not behave identically in the strict sense the
claim states. -/
theorem fetch_modifier_order_cex :
    parseFetchId ("/a/b|topic:hooks|tokens:15000") =
      parseFetchId ("/a/b|tokens:15000|topic:hooks") ∧
    fetchOp (fun _ => "docs") [] ("/a/b|topic:hooks|tokens:15000") ≠
      fetchOp (fun _ => "docs") [] ("/a/b|tokens:15000|topic:hooks") := by
  refine ⟨rfl, fun hcontra => ?_⟩
  have h2 : (some ("/a/b|topic:hooks|tokens:15000") : Option String) =
      some ("/a/b|tokens:15000|topic:hooks") := by
    calc (some ("/a/b|topic:hooks|tokens:15000") : Option String)
        = Option.map FetchResult.id (Except.toOption
            (fetchOp (fun _ => "docs") [] ("/a/b|topic:hooks|tokens:15000"))) := by rfl
      _ = Option.map FetchResult.id (Except.toOption
            (fetchOp (fun _ => "docs") [] ("/a/b|tokens:15000|topic:hooks"))) := by
            rw [hcontra]
      _ = some ("/a/b|tokens:15000|topic:hooks") := by rfl
  exact absurd (Option.some.inj h2) (by decide)

theorem libraryPath_ne_empty {b : String} (h : isLibraryPath b = true) :
    (b != "") = true := by
  by_cases he : b = ""
  · subst he
    exact absurd h (by decide)
  · simp [he]

/-- C10: an empty `topic:` override is treated as absent: the parsed
topic is the empty string, and the effective topic (recorded in the
response metadata and sent to the backend) falls back to the cached
originating query — which is the base id itself in the direct-path
case. -/
theorem empty_topic_fallback (oracle : Oracle) (cache : Cache) (b : String)
    (hb : '|' ∉ b.data) :
    (parseFetchId (b ++ "|topic:")).base = b ∧
    (parseFetchId (b ++ "|topic:")).topic = some "" ∧
    (isLibraryPath b = true →
      ∀ res, fetchOp oracle cache (b ++ "|topic:") = Except.ok res →
        res.metadata.topic = b ∧
        res.text = oracle (CallArgs.getDocs b 10000 (some b))) ∧
    (∀ e : CacheEntry, isLibraryPath b = false → cacheLookup cache b = some e →
      ∀ res, fetchOp oracle cache (b ++ "|topic:") = Except.ok res →
        res.metadata.topic = e.query) := by
  have hsplit : pySplit '|' (b ++ "|topic:") = [b, "topic:"] := by
    have h1 : (b ++ "|topic:").data = b.data ++ '|' :: ("topic:" : String).data := rfl
    unfold pySplit
    rw [h1, splitOnChar_append hb,
      splitOnChar_not_mem (by decide : '|' ∉ ("topic:" : String).data)]
    rfl
  have hparse : parseFetchId (b ++ "|topic:") =
      { base := b, topic := some "", tokens := 10000 } := by
    unfold parseFetchId
    rw [hsplit]
    rfl
  refine ⟨by rw [hparse], by rw [hparse], ?_, ?_⟩
  · intro hlib res hfr
    have hres : resolveBase cache (parseFetchId (b ++ "|topic:")).base =
        Except.ok (b, { title := pyTitle (pyLast (pySplit '/' b)), query := b
                        snippets := "Unknown", trust_score := "Unknown" }) := by
      rw [hparse]
      unfold resolveBase
      dsimp only
      rw [hlib]
      rw [if_pos rfl]
    have hs := fetch_ok_spec oracle cache (b ++ "|topic:") b _ res hres hfr
    constructor
    · have ht := hs.2.2.2.1
      rw [hparse] at ht
      simpa [optTruthy] using ht
    · have htx := hs.2.1
      rw [hparse] at htx
      simpa [optTruthy, get_library_docs, libraryPath_ne_empty hlib] using htx
  · intro e hlib he res hfr
    have hres : resolveBase cache (parseFetchId (b ++ "|topic:")).base =
        Except.ok (e.library_id, fetchInfoOf e) := by
      rw [hparse]
      unfold resolveBase
      dsimp only
      rw [hlib]
      simp only [Bool.false_eq_true, if_false]
      rw [he]
    have hs := fetch_ok_spec oracle cache (b ++ "|topic:") e.library_id
      (fetchInfoOf e) res hres hfr
    have ht := hs.2.2.2.1
    rw [hparse] at ht
    simpa [optTruthy, fetchInfoOf] using ht

/-- Witness for C10 in both the direct-path and the cached case. -/
theorem empty_topic_fallback_witness :
    (parseFetchId ("/org/project" ++ "|topic:")).topic = some "" ∧
    ((Except.toOption (fetchOp (fun _ => "docs") []
        ("/org/project" ++ "|topic:"))).getD dummyDoc).metadata.topic = "/org/project" ∧
    ((Except.toOption (fetchOp (fun _ => "docs") [("abc", sampleEntry)]
        ("abc" ++ "|topic:"))).getD dummyDoc).metadata.topic = "q" := by
  refine ⟨(empty_topic_fallback (fun _ => "docs") [] ("/org/project")
    (by decide)).2.1, ?_, ?_⟩
  · exact ((empty_topic_fallback (fun _ => "docs") [] ("/org/project")
      (by decide)).2.2.1 (by rfl)
      ((Except.toOption (fetchOp (fun _ => "docs") []
        ("/org/project" ++ "|topic:"))).getD dummyDoc) (by rfl)).1
  · exact (empty_topic_fallback (fun _ => "docs") [("abc", sampleEntry)] ("abc")
      (by decide)).2.2.2 sampleEntry (by rfl) (by rfl)
      ((Except.toOption (fetchOp (fun _ => "docs") [("abc", sampleEntry)]
        ("abc" ++ "|topic:"))).getD dummyDoc) (by rfl)

/-- Witness for C9 on a one-entry cache. -/
theorem fetch_preserves_cache_witness :
    (bridgeStep (fun s => s) (fun _ => "docs") [("k", sampleEntry)]
      (BridgeOp.fetch ("/a/b"))).1 = [("k", sampleEntry)] ∧
    ∃ v2, cacheLookup (bridgeStep (fun s => s) (fun _ => "docs") [("k", sampleEntry)]
      (BridgeOp.search ("react"))).1 ("k") = some v2 :=
  ⟨(fetch_preserves_cache (fun s => s) (fun _ => "docs") [("k", sampleEntry)]
      ("/a/b") ("react") ("k") sampleEntry).1,
   (fetch_preserves_cache (fun s => s) (fun _ => "docs") [("k", sampleEntry)]
      ("/a/b") ("react") ("k") sampleEntry).2 (by rfl)⟩

end Context7
